import Mathlib

/-!
Shallow embedding of the DSAT what-if score-improvement analysis tool
(`src/analysis.py`, class `DSATWhatIfAnalyzer`), together with theorems
settling the specification claims about it.

Modelling conventions: Python numbers used as counts are `Nat`; scaled
scores are `Int`; ratios, thresholds and times are `Rat` (the Python code
uses true division on small values, modelled exactly by rationals);
Python `dict.get` on possibly-missing keys is modelled with `Option`;
the strings `"hard"`/`"easy"` produced by the difficulty classifier are
modelled by the two-constructor type `Difficulty`.
-/

namespace DSAT

/-- Module 2 difficulty tier, the values `'hard'` / `'easy'` in the code. -/
inductive Difficulty where
  | hard
  | easy
deriving DecidableEq, Repr

/-- One student response record, as consumed via `q.get(...)` accesses in
`analysis.py`: `question_id` / `_id`, `subject.name`, `section`, `correct`,
`time_spent` (milliseconds), `topic.name`, and the complexity field (the code
reads the misspelled key `compleixty` first, then `complexity`). -/
structure Response where
  question_id : Option String
  mongo_id : Option String
  subject_name : Option String
  section_tag : Option String
  correct : Bool
  time_spent : Rat
  topic_name : Option String
  compleixty : Option String
  complexity : Option String
deriving DecidableEq, Repr

/-- One entry of a scoring map: `{"raw": …, "hard": …, "easy": …}`. -/
structure ScoringMapEntry where
  raw : Nat
  hard : Int
  easy : Int
deriving DecidableEq, Repr

/-- One scoring map: `{"key": subject, "map": [entries]}`. -/
structure ScoringMapItem where
  key : String
  map : List ScoringMapEntry
deriving DecidableEq, Repr

/-- The self-populated placeholder scoring maps built in `__init__` when no
maps are supplied: Math raws `0..44` with `hard = 200 + 15*raw`,
`easy = 200 + 10*raw`; Reading and Writing raws `0..54` with
`hard = 200 + 11*raw`, `easy = 200 + 8*raw`. -/
def placeholder_scoring_maps : List ScoringMapItem :=
  [⟨"Math", (List.range 45).map (fun i => ⟨i, 200 + i * 15, 200 + i * 10⟩)⟩,
   ⟨"Reading and Writing", (List.range 55).map (fun i => ⟨i, 200 + i * 11, 200 + i * 8⟩)⟩]

/-- `determine_module2_difficulty(module1_correct, module1_total)`: if the
Module 1 total is `0`, return `easy` unconditionally; otherwise return `hard`
iff `module1_correct / module1_total >= adaptive_threshold`. -/
def determine_module2_difficulty (threshold : Rat) (module1_correct module1_total : Nat) :
    Difficulty :=
  if module1_total = 0 then .easy
  else if threshold ≤ (module1_correct : Rat) / (module1_total : Rat) then .hard
  else .easy

/-- Selects `score[module2_difficulty]` from a scoring-map entry. -/
def tierValue (e : ScoringMapEntry) : Difficulty → Int
  | .hard => e.hard
  | .easy => e.easy

/-- `calculate_scaled_score(subject, raw_score, module2_difficulty)`: find the
first map whose `key` equals the subject (`next(..., None)`); if there is none
or its entry list is empty (`if not map_data`), return 200; otherwise return
the tier value of the first entry whose `raw` equals `raw_score`, and 200 when
no entry matches. -/
def calculate_scaled_score (maps : List ScoringMapItem) (subject : String)
    (raw_score : Nat) (difficulty : Difficulty) : Int :=
  match maps.find? (fun item => item.key == subject) with
  | none => 200
  | some item =>
    if item.map.isEmpty then 200
    else
      match item.map.find? (fun e => e.raw == raw_score) with
      | none => 200
      | some e => tierValue e difficulty

/-- `q.get('question_id', q.get('_id'))`: question id, falling back to the
record's `_id`. -/
def get_question_id (q : Response) : Option String :=
  match q.question_id with
  | some s => some s
  | none => q.mongo_id

/-- `q.get('compleixty', q.get('complexity', 'Unknown'))`: the misspelled key
first, then the correct one, defaulting to `"Unknown"`. -/
def get_complexity (q : Response) : String :=
  match q.compleixty with
  | some s => s
  | none => q.complexity.getD "Unknown"

/-- `[q for q in student_data if q.get('subject', {}).get('name') == subject]`. -/
def subject_data (data : List Response) (subject : String) : List Response :=
  data.filter (fun q => q.subject_name == some subject)

/-- Membership of a section label in `['Hard', 'Adaptive', 'Module 2', 'AdaptiveHard']`. -/
def isModule2Section (s : Option String) : Bool :=
  s == some "Hard" || s == some "Adaptive" || s == some "Module 2" || s == some "AdaptiveHard"

/-- `[q for q in subject_data if q.get('section') == 'Static']`. -/
def module1_data (data : List Response) (subject : String) : List Response :=
  (subject_data data subject).filter (fun q => q.section_tag == some "Static")

/-- `[q for q in subject_data if q.get('section') in ['Hard', 'Adaptive', 'Module 2', 'AdaptiveHard']]`. -/
def module2_data (data : List Response) (subject : String) : List Response :=
  (subject_data data subject).filter (fun q => isModule2Section q.section_tag)

/-- `sum(1 for q in module1_data if q.get('correct'))`. -/
def module1_correct (data : List Response) (subject : String) : Nat :=
  (module1_data data subject).countP (fun q => q.correct)

/-- `len(module1_data)`. -/
def module1_total (data : List Response) (subject : String) : Nat :=
  (module1_data data subject).length

/-- `sum(1 for q in module2_data if q.get('correct'))`. -/
def module2_correct (data : List Response) (subject : String) : Nat :=
  (module2_data data subject).countP (fun q => q.correct)

/-- `len(module2_data)`. -/
def module2_total (data : List Response) (subject : String) : Nat :=
  (module2_data data subject).length

/-- One `slow_questions` entry: question id, topic name, time in seconds. -/
structure SlowQuestion where
  question_id : Option String
  topic : Option String
  time_spent_s : Rat
deriving DecidableEq, Repr

/-- Builds the `slow_questions` dict for one response. -/
def mkSlowQuestion (q : Response) : SlowQuestion :=
  ⟨get_question_id q, q.topic_name, q.time_spent / 1000⟩

/-- `slow_questions`: the responses of the subject with
`q.get('time_spent', 0) / 1000 > 60`, in order. -/
def slow_questions_of (sd : List Response) : List SlowQuestion :=
  (sd.filter (fun q => decide (60 < q.time_spent / 1000))).map mkSlowQuestion

/-- Topic keys in first-occurrence order, skipping responses whose
`topic.name` is absent or falsy (the empty string), mirroring the
`defaultdict` insertion order under `if topic:`. -/
def topicKeysAux : List Response → List String → List String
  | [], acc => acc
  | q :: rest, acc =>
    match q.topic_name with
    | some t =>
      if t = "" then topicKeysAux rest acc
      else if t ∈ acc then topicKeysAux rest acc
      else topicKeysAux rest (acc ++ [t])
    | none => topicKeysAux rest acc

/-- The distinct (truthy) topic names of a response list, in first-occurrence
order. -/
def topicKeys (sd : List Response) : List String :=
  topicKeysAux sd []

/-- The subject responses carrying topic `t` (`topics[topic]` accumulation). -/
def topicResponses (sd : List Response) (t : String) : List Response :=
  sd.filter (fun q => q.topic_name == some t)

/-- `topics[topic]['total']`. -/
def topic_total (sd : List Response) (t : String) : Nat :=
  (topicResponses sd t).length

/-- `topics[topic]['correct']`. -/
def topic_correct (sd : List Response) (t : String) : Nat :=
  (topicResponses sd t).countP (fun q => q.correct)

/-- `topics[topic]['time_spent_s']`. -/
def topic_times (sd : List Response) (t : String) : List Rat :=
  (topicResponses sd t).map (fun q => q.time_spent / 1000)

/-- `weak_topics`: topic → accuracy percentage, for topics with
`total > 0 and correct / total < 0.5` (the code stores a formatted percent
string; the numeric percentage is modelled). -/
def weak_topics_of (sd : List Response) : List (String × Rat) :=
  ((topicKeys sd).filter (fun t =>
      decide (0 < topic_total sd t) &&
      decide ((topic_correct sd t : Rat) / (topic_total sd t : Rat) < 1 / 2))).map
    (fun t => (t, (topic_correct sd t : Rat) / (topic_total sd t : Rat) * 100))

/-- One `topic_clusters` entry: accuracy percentage and average time in
seconds (the code stores them in a formatted string). -/
structure TopicCluster where
  topic : String
  accuracy_pct : Rat
  avg_time_s : Rat
deriving DecidableEq, Repr

/-- `topic_clusters`: every topic with `total > 0`, with accuracy percentage
and mean response time. -/
def topic_clusters_of (sd : List Response) : List TopicCluster :=
  ((topicKeys sd).filter (fun t => decide (0 < topic_total sd t))).map
    (fun t =>
      ⟨t, (topic_correct sd t : Rat) / (topic_total sd t : Rat) * 100,
        (topic_times sd t).sum / ((topic_times sd t).length : Rat)⟩)

/-- `performance[subject]['Module 1']`. -/
structure Module1Stats where
  correct : Nat
  total : Nat
  accuracy : Rat
deriving DecidableEq, Repr

/-- `performance[subject]['Module 2']`. -/
structure Module2Stats where
  correct : Nat
  total : Nat
  difficulty : Difficulty
deriving DecidableEq, Repr

/-- The per-subject performance dictionary built by `analyze_performance`. -/
structure PerformanceSummary where
  module1 : Module1Stats
  module2 : Module2Stats
  raw_score : Nat
  scaled_score : Int
  slow_questions : List SlowQuestion
  weak_topics : List (String × Rat)
  topic_clusters : List TopicCluster
deriving DecidableEq, Repr

/-- The fully zeroed summary assigned when `module1_total == 0`. -/
def zeroedSummary : PerformanceSummary :=
  ⟨⟨0, 0, 0⟩, ⟨0, 0, .easy⟩, 0, 200, [], [], []⟩

/-- The body of `analyze_performance` for one subject: stage partition and
counts, the `module1_total == 0` short-circuit to the zeroed summary, and
otherwise difficulty classification, scaled-score lookup, slow questions,
weak topics and topic clusters. -/
def analyze_performance_subject (maps : List ScoringMapItem) (threshold : Rat)
    (data : List Response) (subject : String) : PerformanceSummary :=
  let sd := subject_data data subject
  let m1c := module1_correct data subject
  let m1t := module1_total data subject
  let m2c := module2_correct data subject
  let m2t := module2_total data subject
  let raw := m1c + m2c
  if m1t = 0 then zeroedSummary
  else
    let difficulty := determine_module2_difficulty threshold m1c m1t
    let scaled := calculate_scaled_score maps subject raw difficulty
    ⟨⟨m1c, m1t, if 0 < m1t then (m1c : Rat) / (m1t : Rat) else 0⟩,
     ⟨m2c, m2t, difficulty⟩, raw, scaled,
     slow_questions_of sd, weak_topics_of sd, topic_clusters_of sd⟩

/-- `analyze_performance(student_data, source_file)`: the summaries for
`'Math'` and `'Reading and Writing'`. -/
def analyze_performance (maps : List ScoringMapItem) (threshold : Rat)
    (data : List Response) : PerformanceSummary × PerformanceSummary :=
  (analyze_performance_subject maps threshold data "Math",
   analyze_performance_subject maps threshold data "Reading and Writing")

/-- One `high_impact_questions` entry. -/
structure HighImpactQuestion where
  question_id : Option String
  topic : Option String
  complexity : String
deriving DecidableEq, Repr

/-- Builds one `high_impact_questions` dict. -/
def mkHighImpactQuestion (q : Response) : HighImpactQuestion :=
  ⟨get_question_id q, q.topic_name, get_complexity q⟩

/-- The per-subject result dictionary of `what_if_analysis`. -/
structure WhatIfResult where
  current_score : Int
  new_score : Int
  score_gain : Int
  high_impact_questions : List HighImpactQuestion
deriving DecidableEq, Repr

/-- The body of `what_if_analysis` for one subject: recompute the current
raw score, difficulty and scaled score; form the hypothetical with
`min(module1_correct + additional_correct, module1_total)` extra Module 1
corrects and an unchanged Module 2; and list the first `additional_correct`
originally-incorrect Module 1 responses. -/
def what_if_analysis_subject (maps : List ScoringMapItem) (threshold : Rat)
    (data : List Response) (subject : String) (additional_correct : Nat) : WhatIfResult :=
  let m1c := module1_correct data subject
  let m1t := module1_total data subject
  let m2c := module2_correct data subject
  let current_raw := m1c + m2c
  let current_difficulty := determine_module2_difficulty threshold m1c m1t
  let current_score := calculate_scaled_score maps subject current_raw current_difficulty
  let new_m1c := min (m1c + additional_correct) m1t
  let new_difficulty := determine_module2_difficulty threshold new_m1c m1t
  let new_raw := new_m1c + m2c
  let new_score := calculate_scaled_score maps subject new_raw new_difficulty
  let high_impact := (module1_data data subject).filter (fun q => !q.correct)
  ⟨current_score, new_score, new_score - current_score,
   (high_impact.take additional_correct).map mkHighImpactQuestion⟩

/-- `what_if_analysis(student_data, source_file, additional_correct)`: the
results for `'Math'` and `'Reading and Writing'`. -/
def what_if_analysis (maps : List ScoringMapItem) (threshold : Rat)
    (data : List Response) (additional_correct : Nat) : WhatIfResult × WhatIfResult :=
  (what_if_analysis_subject maps threshold data "Math" additional_correct,
   what_if_analysis_subject maps threshold data "Reading and Writing" additional_correct)

/-- One historical sample consumed by the threshold calibrator:
`{module1_correct, module1_total, got_hard_module2}`. -/
structure ThresholdSample where
  module1_correct : Nat
  module1_total : Nat
  got_hard_module2 : Bool
deriving DecidableEq, Repr

/-- The `'hard'`-prediction of the classifier decision rule for one sample at
a threshold (only meaningful when `module1_total ≠ 0`). -/
def predictsHard (s : ThresholdSample) (threshold : Rat) : Bool :=
  decide (threshold ≤ (s.module1_correct : Rat) / (s.module1_total : Rat))

/-- `calculate_prediction_accuracy(data, threshold)`: samples with
`module1_total == 0` are skipped; over the rest, the fraction whose predicted
difficulty matches `got_hard_module2`; `0` when no sample is valid. -/
def calculate_prediction_accuracy (data : List ThresholdSample) (threshold : Rat) : Rat :=
  let valid := data.filter (fun s => s.module1_total != 0)
  let correct := valid.countP (fun s => predictsHard s threshold == s.got_hard_module2)
  if valid.length = 0 then 0 else (correct : Rat) / (valid.length : Rat)

/-- The candidate grid `np.arange(0.3, 0.8, 0.05)`:
ten thresholds `0.30, 0.35, …, 0.75` in ascending order. -/
def threshold_grid : List Rat :=
  (List.range 10).map (fun i => 3 / 10 + (i : Rat) * (1 / 20))

/-- The scan loop of `find_optimal_threshold`: running best accuracy and best
threshold, updated only on a strict accuracy improvement. -/
def find_optimal_threshold_aux (data : List ThresholdSample) :
    List Rat → Rat → Rat → Rat
  | [], _, best_threshold => best_threshold
  | t :: rest, best_accuracy, best_threshold =>
    let accuracy := calculate_prediction_accuracy data t
    if best_accuracy < accuracy then find_optimal_threshold_aux data rest accuracy t
    else find_optimal_threshold_aux data rest best_accuracy best_threshold

/-- `find_optimal_threshold(data)`: scan the grid starting from
`best_accuracy = 0`, `best_threshold = 0.5`. -/
def find_optimal_threshold (data : List ThresholdSample) : Rat :=
  find_optimal_threshold_aux data threshold_grid 0 (1 / 2)

/-- The maximum prediction accuracy over a candidate list, with an explicit
lower base (used to specify the calibrator's scan). -/
def maxAccWith (data : List ThresholdSample) (base : Rat) (ts : List Rat) : Rat :=
  ts.foldr (fun t m => max (calculate_prediction_accuracy data t) m) base

/-- The first candidate attaining the maximum accuracy over `ts` (the value
the claim says the calibrator returns). -/
def first_best_threshold (data : List ThresholdSample) (ts : List Rat) : Option Rat :=
  ts.find? (fun t => decide (maxAccWith data 0 ts ≤ calculate_prediction_accuracy data t))

/-- Test fixture: a Math response in the Module 2 section `'Hard'`. -/
def rMathHard : Response :=
  ⟨some "q1", none, some "Math", some "Hard", true, 0, none, none, none⟩

/-- Test fixture: a correct Math Module 1 response taking 61 seconds. -/
def rMathStatic61 : Response :=
  ⟨some "q2", none, some "Math", some "Static", true, 61000, some "Algebra", none, none⟩

/-- Test fixture: an incorrect Math Module 1 response taking exactly 60 seconds. -/
def rMathStatic60 : Response :=
  ⟨some "q3", none, some "Math", some "Static", false, 60000, some "Algebra", none, none⟩

/-- Test fixture: a Math response with an unrecognized section label. -/
def rMathBreak : Response :=
  ⟨some "q4", none, some "Math", some "Break", false, 61000, some "Geometry", none, none⟩

end DSAT

namespace DSAT

set_option maxRecDepth 8000

/-- C3: the difficulty classifier returns easy when the Module 1 total is
zero (for every correct count and threshold), and otherwise returns hard
exactly when the Module 1 ratio is at least the threshold, the boundary
ratio included. -/
theorem determine_module2_difficulty_spec (threshold : Rat) (c t : Nat) :
    (t = 0 → determine_module2_difficulty threshold c t = .easy) ∧
    (t ≠ 0 → (determine_module2_difficulty threshold c t = .hard ↔
      (c : Rat) / (t : Rat) ≥ threshold)) := by
  refine ⟨fun h => by simp [determine_module2_difficulty, h], fun h => ?_⟩
  unfold determine_module2_difficulty
  rw [if_neg h]
  by_cases hc : threshold ≤ (c : Rat) / (t : Rat)
  · simp [hc, ge_iff_le]
  · simp [hc, ge_iff_le]

/-- Witness for `determine_module2_difficulty_spec`: 3 of 5 at threshold 0.6
is classified hard (boundary), and a zero total is classified easy. -/
theorem determine_module2_difficulty_spec_witness :
    determine_module2_difficulty (3 / 5) 3 5 = .hard ∧
    determine_module2_difficulty (3 / 5) 7 0 = .easy :=
  ⟨((determine_module2_difficulty_spec (3 / 5) 3 5).2 (by decide)).mpr (by norm_num),
   (determine_module2_difficulty_spec (3 / 5) 7 0).1 rfl⟩

/-- C4: when no scoring map is configured for the subject, or no entry of the
subject's map has exactly the requested raw score, the scaled-score lookup
returns exactly 200, whatever the tier; there is no interpolation between
entries. -/
theorem calculate_scaled_score_default (maps : List ScoringMapItem) (subject : String)
    (raw_score : Nat) (difficulty : Difficulty)
    (h : ∀ item ∈ maps, item.key = subject → ∀ e ∈ item.map, e.raw ≠ raw_score) :
    calculate_scaled_score maps subject raw_score difficulty = 200 := by
  unfold calculate_scaled_score
  cases hf : maps.find? (fun item => item.key == subject) with
  | none => rfl
  | some item =>
    have hmem : item ∈ maps := List.mem_of_find?_eq_some hf
    have hkey : item.key = subject := by simpa using List.find?_some hf
    cases he : item.map.isEmpty with
    | true => simp [he]
    | false =>
      simp only [he, Bool.false_eq_true, if_false]
      cases hf2 : item.map.find? (fun e => e.raw == raw_score) with
      | none => rfl
      | some e =>
        exact absurd (by simpa using List.find?_some hf2)
          (h item hmem hkey e (List.mem_of_find?_eq_some hf2))

/-- Witness for `calculate_scaled_score_default`: raw score 100 is not covered
by the placeholder Math map, so the lookup returns 200. -/
theorem calculate_scaled_score_default_witness :
    calculate_scaled_score placeholder_scoring_maps "Math" 100 .hard = 200 :=
  calculate_scaled_score_default placeholder_scoring_maps "Math" 100 .hard
    (by with_unfolding_all decide)

/-- C5: when a subject has zero Module 1 responses, the aggregation yields the
fully zeroed summary — scaled score 200, raw score 0, empty slow questions,
weak topics and topic clusters — and the result does not depend on the scoring
maps or the threshold, so no classifier or calculator result can influence it. -/
theorem analyze_performance_zero_module1 (maps : List ScoringMapItem) (threshold : Rat)
    (data : List Response) (subject : String) (h : module1_total data subject = 0) :
    analyze_performance_subject maps threshold data subject =
      ⟨⟨0, 0, 0⟩, ⟨0, 0, .easy⟩, 0, 200, [], [], []⟩ := by
  unfold analyze_performance_subject
  simp [h, zeroedSummary]

/-- Witness for `analyze_performance_zero_module1`: a lone Math response in
section `'Hard'` leaves Module 1 empty, and the summary is fully zeroed. -/
theorem analyze_performance_zero_module1_witness :
    module1_total [rMathHard] "Math" = 0 ∧
    analyze_performance_subject placeholder_scoring_maps (3 / 5) [rMathHard] "Math" =
      ⟨⟨0, 0, 0⟩, ⟨0, 0, .easy⟩, 0, 200, [], [], []⟩ :=
  ⟨by with_unfolding_all decide,
   analyze_performance_zero_module1 placeholder_scoring_maps (3 / 5) [rMathHard] "Math"
     (by with_unfolding_all decide)⟩

/-- C6: the what-if hypothetical caps the new Module 1 correct count at the
Module 1 total, reclassifies difficulty from the new ratio, keeps the Module 2
correct count unchanged in the new raw score, obtains the new score from the
same scaled-score calculation, and reports the gain as new minus current. -/
theorem what_if_scores_spec (maps : List ScoringMapItem) (threshold : Rat)
    (data : List Response) (subject : String) (additional_correct : Nat) :
    (what_if_analysis_subject maps threshold data subject additional_correct).current_score =
      calculate_scaled_score maps subject
        (module1_correct data subject + module2_correct data subject)
        (determine_module2_difficulty threshold (module1_correct data subject)
          (module1_total data subject)) ∧
    (what_if_analysis_subject maps threshold data subject additional_correct).new_score =
      calculate_scaled_score maps subject
        (min (module1_correct data subject + additional_correct) (module1_total data subject) +
          module2_correct data subject)
        (determine_module2_difficulty threshold
          (min (module1_correct data subject + additional_correct) (module1_total data subject))
          (module1_total data subject)) ∧
    (what_if_analysis_subject maps threshold data subject additional_correct).score_gain =
      (what_if_analysis_subject maps threshold data subject additional_correct).new_score -
        (what_if_analysis_subject maps threshold data subject additional_correct).current_score :=
  ⟨rfl, rfl, rfl⟩

/-- C7: `high_impact_questions` is exactly the first `additional_correct`
incorrect Module 1 responses in original order; its length is the minimum of
`additional_correct` and the number of incorrect Module 1 responses; and a
response with neither complexity field gets the label `"Unknown"`. -/
theorem what_if_high_impact_spec (maps : List ScoringMapItem) (threshold : Rat)
    (data : List Response) (subject : String) (additional_correct : Nat) :
    (what_if_analysis_subject maps threshold data subject
        additional_correct).high_impact_questions =
      (((module1_data data subject).filter (fun q => !q.correct)).take
        additional_correct).map mkHighImpactQuestion ∧
    (what_if_analysis_subject maps threshold data subject
        additional_correct).high_impact_questions.length =
      min additional_correct ((module1_data data subject).filter (fun q => !q.correct)).length ∧
    (∀ q : Response, q.compleixty = none → q.complexity = none →
      (mkHighImpactQuestion q).complexity = "Unknown") := by
  refine ⟨rfl, ?_, ?_⟩
  · show ((((module1_data data subject).filter (fun q => !q.correct)).take
        additional_correct).map mkHighImpactQuestion).length = _
    rw [List.length_map, List.length_take]
  · intro q h1 h2
    simp [mkHighImpactQuestion, get_complexity, h1, h2]

/-- Witness for `what_if_high_impact_spec`: one incorrect Module 1 response
with no complexity fields is listed and labelled `"Unknown"`. -/
theorem what_if_high_impact_spec_witness :
    (what_if_analysis_subject placeholder_scoring_maps (3 / 5) [rMathStatic60] "Math"
        2).high_impact_questions =
      (((module1_data [rMathStatic60] "Math").filter (fun q => !q.correct)).take 2).map
        mkHighImpactQuestion ∧
    (mkHighImpactQuestion rMathStatic60).complexity = "Unknown" :=
  ⟨(what_if_high_impact_spec placeholder_scoring_maps (3 / 5) [rMathStatic60] "Math" 2).1,
   (what_if_high_impact_spec placeholder_scoring_maps (3 / 5) [rMathStatic60] "Math" 2).2.2
     rMathStatic60 rfl rfl⟩

/-- C9: for a subject with at least one Module 1 response, the slow questions
are exactly the subject's responses with `time_spent / 1000 > 60`, and every
listed entry has a time strictly above 60 seconds, so a response at exactly
60.0 seconds is never listed. -/
theorem slow_questions_spec (maps : List ScoringMapItem) (threshold : Rat)
    (data : List Response) (subject : String) (h : module1_total data subject ≠ 0) :
    (analyze_performance_subject maps threshold data subject).slow_questions =
      ((subject_data data subject).filter
        (fun q => decide (60 < q.time_spent / 1000))).map mkSlowQuestion ∧
    ∀ s ∈ (analyze_performance_subject maps threshold data subject).slow_questions,
      60 < s.time_spent_s := by
  have h1 : (analyze_performance_subject maps threshold data subject).slow_questions =
      slow_questions_of (subject_data data subject) := by
    unfold analyze_performance_subject
    simp [h]
  constructor
  · rw [h1]; rfl
  · rw [h1]
    intro s hs
    unfold slow_questions_of at hs
    obtain ⟨q, hq, rfl⟩ := List.mem_map.mp hs
    have hp := List.of_mem_filter hq
    simpa [mkSlowQuestion] using of_decide_eq_true hp

/-- Witness for `slow_questions_spec`: of a 61-second and a 60.0-second Math
Module 1 response, the slow list is computed by the strict filter. -/
theorem slow_questions_spec_witness :
    (analyze_performance_subject placeholder_scoring_maps (3 / 5)
        [rMathStatic61, rMathStatic60] "Math").slow_questions =
      ((subject_data [rMathStatic61, rMathStatic60] "Math").filter
        (fun q => decide (60 < q.time_spent / 1000))).map mkSlowQuestion :=
  (slow_questions_spec placeholder_scoring_maps (3 / 5) [rMathStatic61, rMathStatic60] "Math"
    (by with_unfolding_all decide)).1

/-- C1 counterexample: a single Math response in section `'Hard'` (zero Module
1 responses) makes the what-if current score 210 under the placeholder maps,
while the performance summary reports the zeroed scaled score 200. -/
theorem what_if_current_score_mismatch :
    (what_if_analysis placeholder_scoring_maps (3 / 5) [rMathHard] 2).1.current_score = 210 ∧
    (analyze_performance placeholder_scoring_maps (3 / 5) [rMathHard]).1.scaled_score = 200 ∧
    (210 : Int) ≠ 200 := by
  refine ⟨?_, ?_, by decide⟩
  · with_unfolding_all decide
  · with_unfolding_all decide

/-- C1 amended: whenever the subject has at least one Module 1 response, the
what-if current score coincides with the performance summary's scaled score
(for the same maps, threshold and input records). -/
theorem what_if_current_score_eq (maps : List ScoringMapItem) (threshold : Rat)
    (data : List Response) (subject : String) (additional_correct : Nat)
    (h : module1_total data subject ≠ 0) :
    (what_if_analysis_subject maps threshold data subject additional_correct).current_score =
      (analyze_performance_subject maps threshold data subject).scaled_score := by
  unfold what_if_analysis_subject analyze_performance_subject
  simp [h]

/-- Witness for `what_if_current_score_eq`: a single correct Math Module 1
response gives matching current and scaled scores. -/
theorem what_if_current_score_eq_witness :
    (what_if_analysis_subject placeholder_scoring_maps (3 / 5) [rMathStatic61] "Math"
        2).current_score =
      (analyze_performance_subject placeholder_scoring_maps (3 / 5) [rMathStatic61]
        "Math").scaled_score :=
  what_if_current_score_eq placeholder_scoring_maps (3 / 5) [rMathStatic61] "Math" 2
    (by with_unfolding_all decide)

/-- C2 counterexample: the placeholder Math map stores the entry with raw
score 41 whose hard scaled value is 815, which exceeds 800. -/
theorem placeholder_hard_value_above_800 :
    ∃ item ∈ placeholder_scoring_maps, item.key = "Math" ∧
      (⟨41, 815, 610⟩ : ScoringMapEntry) ∈ item.map ∧ ¬((815 : Int) ≤ 800) := by
  with_unfolding_all decide

/-- C2 amended: every scaled value of the placeholder maps lies in [200, 860];
all easy values lie in [200, 800]; all Reading and Writing values lie in
[200, 800]; and a placeholder Math hard value lies within 800 exactly for raw
scores at most 40 (it exceeds 800 for raw scores 41 through 44). -/
theorem placeholder_scoring_maps_bounds :
    (∀ item ∈ placeholder_scoring_maps, ∀ e ∈ item.map,
      200 ≤ e.easy ∧ e.easy ≤ 800 ∧ 200 ≤ e.hard ∧ e.hard ≤ 860) ∧
    (∀ item ∈ placeholder_scoring_maps, item.key = "Reading and Writing" →
      ∀ e ∈ item.map, e.hard ≤ 800) ∧
    (∀ item ∈ placeholder_scoring_maps, item.key = "Math" →
      ∀ e ∈ item.map, (e.hard ≤ 800 ↔ e.raw ≤ 40)) := by
  with_unfolding_all decide

/-- Witness for `placeholder_scoring_maps_bounds`: instantiated at the Math
map's raw-0 entry and at the overflowing raw-41 entry. -/
theorem placeholder_scoring_maps_bounds_witness :
    (200 ≤ (⟨0, 200, 200⟩ : ScoringMapEntry).easy ∧
      (⟨0, 200, 200⟩ : ScoringMapEntry).easy ≤ 800 ∧
      200 ≤ (⟨0, 200, 200⟩ : ScoringMapEntry).hard ∧
      (⟨0, 200, 200⟩ : ScoringMapEntry).hard ≤ 860) ∧
    ((⟨41, 815, 610⟩ : ScoringMapEntry).hard ≤ 800 ↔
      (⟨41, 815, 610⟩ : ScoringMapEntry).raw ≤ 40) :=
  ⟨placeholder_scoring_maps_bounds.1
      ⟨"Math", (List.range 45).map (fun i => ⟨i, 200 + i * 15, 200 + i * 10⟩)⟩
      (by with_unfolding_all decide) ⟨0, 200, 200⟩ (by with_unfolding_all decide),
   placeholder_scoring_maps_bounds.2.2
      ⟨"Math", (List.range 45).map (fun i => ⟨i, 200 + i * 15, 200 + i * 10⟩)⟩
      (by with_unfolding_all decide) rfl ⟨41, 815, 610⟩ (by with_unfolding_all decide)⟩

theorem calculate_prediction_accuracy_no_valid (data : List ThresholdSample) (t : Rat)
    (h : ∀ s ∈ data, s.module1_total = 0) : calculate_prediction_accuracy data t = 0 := by
  unfold calculate_prediction_accuracy
  have hnil : data.filter (fun s => s.module1_total != 0) = [] := by
    rw [List.filter_eq_nil_iff]
    intro s hs
    simp [h s hs]
  simp [hnil]

theorem find_optimal_threshold_aux_all_le (data : List ThresholdSample) :
    ∀ (ts : List Rat) (b thr : Rat),
      (∀ t ∈ ts, calculate_prediction_accuracy data t ≤ b) →
      find_optimal_threshold_aux data ts b thr = thr := by
  intro ts
  induction ts with
  | nil => intro b thr _; rfl
  | cons t rest ih =>
    intro b thr h
    simp only [find_optimal_threshold_aux]
    rw [if_neg (not_lt.mpr (h t (List.mem_cons_self t rest)))]
    exact ih b thr (fun u hu => h u (List.mem_cons_of_mem t hu))

theorem maxAccWith_cons (data : List ThresholdSample) (b t : Rat) (ts : List Rat) :
    maxAccWith data b (t :: ts) =
      max (calculate_prediction_accuracy data t) (maxAccWith data b ts) := rfl

theorem le_maxAccWith (data : List ThresholdSample) :
    ∀ (ts : List Rat) (b : Rat), b ≤ maxAccWith data b ts := by
  intro ts
  induction ts with
  | nil => intro b; exact le_refl b
  | cons t rest ih => intro b; exact le_trans (ih b) (le_max_right _ _)

theorem acc_le_maxAccWith (data : List ThresholdSample) :
    ∀ (ts : List Rat) (b t : Rat), t ∈ ts →
      calculate_prediction_accuracy data t ≤ maxAccWith data b ts := by
  intro ts
  induction ts with
  | nil => intro b t ht; cases ht
  | cons u rest ih =>
    intro b t ht
    rcases List.mem_cons.mp ht with h | h
    · subst h; exact le_max_left _ _
    · exact le_trans (ih b t h) (le_max_right _ _)

theorem maxAccWith_le (data : List ThresholdSample) :
    ∀ (ts : List Rat) (b c : Rat), b ≤ c →
      (∀ t ∈ ts, calculate_prediction_accuracy data t ≤ c) → maxAccWith data b ts ≤ c := by
  intro ts
  induction ts with
  | nil => intro b c hbc _; exact hbc
  | cons u rest ih =>
    intro b c hbc h
    rw [maxAccWith_cons]
    exact max_le (h u (List.mem_cons_self u rest))
      (ih b c hbc (fun t ht => h t (List.mem_cons_of_mem u ht)))

theorem maxAccWith_base (data : List ThresholdSample) :
    ∀ (ts : List Rat) (b c : Rat), b ≤ c →
      maxAccWith data c ts = max c (maxAccWith data b ts) := by
  intro ts
  induction ts with
  | nil => intro b c h; exact (max_eq_left h).symm
  | cons t rest ih =>
    intro b c h
    rw [maxAccWith_cons, maxAccWith_cons, ih b c h, max_left_comm]

theorem exists_gt_of_maxAccWith_gt (data : List ThresholdSample) :
    ∀ (ts : List Rat) (b : Rat), b < maxAccWith data b ts →
      ∃ t ∈ ts, b < calculate_prediction_accuracy data t := by
  intro ts
  induction ts with
  | nil => intro b h; exact absurd h (lt_irrefl b)
  | cons t rest ih =>
    intro b h
    rw [maxAccWith_cons] at h
    rcases lt_max_iff.mp h with h1 | h2
    · exact ⟨t, List.mem_cons_self t rest, h1⟩
    · obtain ⟨u, hu, hbu⟩ := ih b h2
      exact ⟨u, List.mem_cons_of_mem t hu, hbu⟩

theorem maxAccWith_gt_of_exists (data : List ThresholdSample) (ts : List Rat) (b : Rat)
    (h : ∃ t ∈ ts, b < calculate_prediction_accuracy data t) :
    b < maxAccWith data b ts := by
  obtain ⟨t, ht, hbt⟩ := h
  exact lt_of_lt_of_le hbt (acc_le_maxAccWith data ts b t ht)

theorem find?_maxAccWith_isSome (data : List ThresholdSample) :
    ∀ (ts : List Rat) (b : Rat),
      (∃ t ∈ ts, b < calculate_prediction_accuracy data t) →
      (ts.find? (fun t =>
        decide (maxAccWith data b ts ≤ calculate_prediction_accuracy data t))).isSome := by
  intro ts
  induction ts with
  | nil => intro b h; obtain ⟨t, ht, _⟩ := h; cases ht
  | cons u rest ih =>
    intro b hex
    by_cases hu : maxAccWith data b (u :: rest) ≤ calculate_prediction_accuracy data u
    · rw [List.find?_cons_of_pos _ (by simpa using hu)]
      rfl
    · rw [List.find?_cons_of_neg _ (by simpa using hu)]
      push_neg at hu
      have hur : calculate_prediction_accuracy data u < maxAccWith data b rest := by
        rcases le_or_lt (maxAccWith data b rest) (calculate_prediction_accuracy data u)
          with hle | hlt
        · rw [maxAccWith_cons, max_eq_left hle] at hu
          exact absurd hu (lt_irrefl _)
        · exact hlt
      have hM : maxAccWith data b (u :: rest) = maxAccWith data b rest := by
        rw [maxAccWith_cons]
        exact max_eq_right (le_of_lt hur)
      rw [hM]
      have hb : b < maxAccWith data b (u :: rest) := maxAccWith_gt_of_exists data _ b hex
      exact ih b (exists_gt_of_maxAccWith_gt data rest b (hM ▸ hb))

theorem find_optimal_threshold_aux_spec (data : List ThresholdSample) :
    ∀ (ts : List Rat) (b thr : Rat),
      (∃ t ∈ ts, b < calculate_prediction_accuracy data t) →
      find_optimal_threshold_aux data ts b thr =
        (ts.find? (fun t =>
          decide (maxAccWith data b ts ≤ calculate_prediction_accuracy data t))).getD thr := by
  intro ts
  induction ts with
  | nil => intro b thr h; obtain ⟨t, ht, _⟩ := h; cases ht
  | cons u rest ih =>
    intro b thr hex
    simp only [find_optimal_threshold_aux]
    by_cases hbu : b < calculate_prediction_accuracy data u
    · rw [if_pos hbu]
      by_cases hall : ∀ t ∈ rest,
          calculate_prediction_accuracy data t ≤ calculate_prediction_accuracy data u
      · rw [find_optimal_threshold_aux_all_le data rest _ _ hall]
        have hM : maxAccWith data b (u :: rest) = calculate_prediction_accuracy data u := by
          rw [maxAccWith_cons]
          exact max_eq_left (maxAccWith_le data rest b _ (le_of_lt hbu) hall)
        rw [hM, List.find?_cons_of_pos _ (by simp)]
        rfl
      · push_neg at hall
        obtain ⟨v, hv, huv⟩ := hall
        rw [ih (calculate_prediction_accuracy data u) u ⟨v, hv, huv⟩]
        have hM : maxAccWith data (calculate_prediction_accuracy data u) rest =
            maxAccWith data b (u :: rest) := by
          rw [maxAccWith_base data rest b _ (le_of_lt hbu), maxAccWith_cons]
        rw [hM]
        have hufail : ¬ (maxAccWith data b (u :: rest) ≤
            calculate_prediction_accuracy data u) := by
          push_neg
          exact lt_of_lt_of_le huv
            (acc_le_maxAccWith data (u :: rest) b v (List.mem_cons_of_mem u hv))
        rw [List.find?_cons_of_neg _ (by simpa using hufail)]
        have hsome := find?_maxAccWith_isSome data rest
          (calculate_prediction_accuracy data u) ⟨v, hv, huv⟩
        rw [hM] at hsome
        obtain ⟨w, hw⟩ := Option.isSome_iff_exists.mp hsome
        rw [hw]
        rfl
    · rw [if_neg hbu]
      obtain ⟨t, ht, hbt⟩ := hex
      rcases List.mem_cons.mp ht with rfl | htr
      · exact absurd hbt hbu
      · rw [ih b thr ⟨t, htr, hbt⟩]
        have hM : maxAccWith data b (u :: rest) = maxAccWith data b rest := by
          rw [maxAccWith_cons]
          exact max_eq_right (le_trans (le_of_not_lt hbu) (le_maxAccWith data rest b))
        have hufail : ¬ (maxAccWith data b (u :: rest) ≤
            calculate_prediction_accuracy data u) := by
          push_neg
          exact lt_of_le_of_lt (le_of_not_lt hbu)
            (lt_of_lt_of_le hbt (acc_le_maxAccWith data (u :: rest) b t ht))
        rw [List.find?_cons_of_neg _ (by simpa using hufail), hM]

/-- C8 counterexample: on the single valid sample (1 of 1, observed easy)
every candidate threshold has accuracy 0, the lowest candidate achieving the
greatest accuracy is 0.30, yet the calibrator returns the default 0.5. -/
theorem find_optimal_threshold_not_first_max :
    find_optimal_threshold [⟨1, 1, false⟩] = 1 / 2 ∧
    first_best_threshold [⟨1, 1, false⟩] threshold_grid = some (3 / 10) ∧
    ((1 : Rat) / 2 ≠ 3 / 10) := by
  refine ⟨?_, ?_, by with_unfolding_all decide⟩
  · with_unfolding_all decide
  · with_unfolding_all decide

/-- C8 amended: when some candidate threshold achieves accuracy strictly
above 0, the calibrator returns the first (lowest) candidate attaining the
greatest accuracy, and a later equal-accuracy candidate never replaces it;
when every candidate's accuracy is 0 — in particular when no sample is valid —
it returns the fixed default 0.5 (which a maximally accurate candidate of
accuracy 0 does not override). Accuracy counts only samples with a nonzero
Module 1 total. -/
theorem find_optimal_threshold_spec (data : List ThresholdSample) :
    ((∃ t ∈ threshold_grid, 0 < calculate_prediction_accuracy data t) →
      find_optimal_threshold data = (first_best_threshold data threshold_grid).getD (1 / 2)) ∧
    ((∀ t ∈ threshold_grid, calculate_prediction_accuracy data t = 0) →
      find_optimal_threshold data = 1 / 2) ∧
    ((∀ s ∈ data, s.module1_total = 0) → find_optimal_threshold data = 1 / 2) := by
  refine ⟨?_, ?_, ?_⟩
  · intro hex
    unfold find_optimal_threshold first_best_threshold
    exact find_optimal_threshold_aux_spec data threshold_grid 0 (1 / 2) hex
  · intro hall
    unfold find_optimal_threshold
    exact find_optimal_threshold_aux_all_le data threshold_grid 0 (1 / 2)
      (fun t ht => le_of_eq (hall t ht))
  · intro hinv
    unfold find_optimal_threshold
    exact find_optimal_threshold_aux_all_le data threshold_grid 0 (1 / 2)
      (fun t _ => le_of_eq (calculate_prediction_accuracy_no_valid data t hinv))

/-- Witness for `find_optimal_threshold_spec`: on the sample 20 of 22 observed
hard, every candidate predicts correctly, and the calibrator returns the
lowest candidate 0.30. -/
theorem find_optimal_threshold_spec_witness :
    find_optimal_threshold [⟨20, 22, true⟩] = 3 / 10 := by
  have h := (find_optimal_threshold_spec [⟨20, 22, true⟩]).1
    ⟨3 / 10, by with_unfolding_all decide, by with_unfolding_all decide⟩
  rw [h]
  with_unfolding_all decide

theorem mem_topicKeysAux (t : String) :
    ∀ (l : List Response) (acc : List String),
      t ∈ topicKeysAux l acc ↔
        t ∈ acc ∨ ∃ q ∈ l, q.topic_name = some t ∧ t ≠ "" := by
  intro l
  induction l with
  | nil =>
    intro acc
    simp [topicKeysAux]
  | cons q rest ih =>
    intro acc
    simp only [topicKeysAux]
    cases hq : q.topic_name with
    | none =>
      rw [ih]
      simp [hq]
    | some s =>
      dsimp only
      by_cases hs : s = ""
      · subst hs
        rw [if_pos rfl, ih]
        simp only [List.mem_cons, hq]
        constructor
        · rintro (h | ⟨u, hu, hut, hne⟩)
          · exact Or.inl h
          · exact Or.inr ⟨u, Or.inr hu, hut, hne⟩
        · rintro (h | ⟨u, rfl | hu, hut, hne⟩)
          · exact Or.inl h
          · rw [hq] at hut
            exact absurd hut.symm (by simpa using hne)
          · exact Or.inr ⟨u, hu, hut, hne⟩
      · rw [if_neg hs]
        by_cases hmem : s ∈ acc
        · rw [if_pos hmem, ih]
          simp only [List.mem_cons, hq]
          constructor
          · rintro (h | ⟨u, hu, hut, hne⟩)
            · exact Or.inl h
            · exact Or.inr ⟨u, Or.inr hu, hut, hne⟩
          · rintro (h | ⟨u, rfl | hu, hut, hne⟩)
            · exact Or.inl h
            · rw [hq] at hut
              obtain rfl : s = t := by simpa using hut
              exact Or.inl hmem
            · exact Or.inr ⟨u, hu, hut, hne⟩
        · rw [if_neg hmem, ih]
          simp only [List.mem_cons, List.mem_append, List.not_mem_nil, or_false, hq]
          constructor
          · rintro ((h | rfl) | ⟨u, hu, hut, hne⟩)
            · exact Or.inl h
            · exact Or.inr ⟨q, Or.inl rfl, hq, hs⟩
            · exact Or.inr ⟨u, Or.inr hu, hut, hne⟩
          · rintro (h | ⟨u, rfl | hu, hut, hne⟩)
            · exact Or.inl (Or.inl h)
            · rw [hq] at hut
              obtain rfl : s = t := by simpa using hut
              exact Or.inl (Or.inr rfl)
            · exact Or.inr ⟨u, hu, hut, hne⟩

/-- C10: a subject response whose section label is neither `'Static'` nor any
Module 2 label is excluded from both stage lists — hence from the stage
correct/total counts — yet still belongs to the subject data over which slow
questions, weak topics and topic clusters are computed: prepending it leaves
both stage lists unchanged while extending the subject data; it is listed
among the slow questions when over 60 seconds; and it adds one to its topic's
total (the statistic weak topics and clusters are computed from), its topic
receiving a cluster. -/
theorem unmatched_section_spec (maps : List ScoringMapItem) (threshold : Rat)
    (l : List Response) (q : Response) (subject : String)
    (hsub : q.subject_name = some subject)
    (hst : q.section_tag ≠ some "Static")
    (hm2 : isModule2Section q.section_tag = false)
    (hm1 : module1_total l subject ≠ 0) :
    module1_data (q :: l) subject = module1_data l subject ∧
    module2_data (q :: l) subject = module2_data l subject ∧
    subject_data (q :: l) subject = q :: subject_data l subject ∧
    (60 < q.time_spent / 1000 →
      mkSlowQuestion q ∈
        (analyze_performance_subject maps threshold (q :: l) subject).slow_questions) ∧
    (∀ t, q.topic_name = some t → t ≠ "" →
      topic_total (subject_data (q :: l) subject) t =
        topic_total (subject_data l subject) t + 1 ∧
      ∃ c ∈ (analyze_performance_subject maps threshold (q :: l) subject).topic_clusters,
        c.topic = t) := by
  have hsd : subject_data (q :: l) subject = q :: subject_data l subject := by
    unfold subject_data
    rw [List.filter_cons, if_pos (by simp [hsub])]
  have h1 : module1_data (q :: l) subject = module1_data l subject := by
    unfold module1_data
    rw [hsd, List.filter_cons, if_neg (by simpa using hst)]
  have h2 : module2_data (q :: l) subject = module2_data l subject := by
    unfold module2_data
    rw [hsd, List.filter_cons, if_neg (by simp [hm2])]
  have hm1' : module1_total (q :: l) subject ≠ 0 := by
    unfold module1_total
    rw [h1]
    exact hm1
  refine ⟨h1, h2, hsd, ?_, ?_⟩
  · intro htime
    have hslow : (analyze_performance_subject maps threshold (q :: l) subject).slow_questions =
        slow_questions_of (subject_data (q :: l) subject) := by
      unfold analyze_performance_subject
      simp [hm1']
    rw [hslow]
    unfold slow_questions_of
    exact List.mem_map_of_mem _
      (List.mem_filter.mpr ⟨hsd ▸ List.mem_cons_self q _, by simpa using htime⟩)
  · intro t ht hne
    have htot : topic_total (subject_data (q :: l) subject) t =
        topic_total (subject_data l subject) t + 1 := by
      unfold topic_total topicResponses
      rw [hsd, List.filter_cons, if_pos (by simp [ht])]
      simp
    refine ⟨htot, ?_⟩
    have hclusters :
        (analyze_performance_subject maps threshold (q :: l) subject).topic_clusters =
          topic_clusters_of (subject_data (q :: l) subject) := by
      unfold analyze_performance_subject
      simp [hm1']
    rw [hclusters]
    unfold topic_clusters_of
    have hkey : t ∈ topicKeys (subject_data (q :: l) subject) := by
      unfold topicKeys
      rw [mem_topicKeysAux]
      exact Or.inr ⟨q, hsd ▸ List.mem_cons_self q _, ht, hne⟩
    have hpos : 0 < topic_total (subject_data (q :: l) subject) t := by
      rw [htot]
      exact Nat.succ_pos _
    exact ⟨_, List.mem_map_of_mem _ (List.mem_filter.mpr ⟨hkey, by simpa using hpos⟩), rfl⟩

/-- Witness for `unmatched_section_spec`: a Math response in section
`'Break'` taking 61 seconds, prepended to a Module 1 response, leaves Module 1
unchanged yet shows up among the slow questions. -/
theorem unmatched_section_spec_witness :
    module1_data [rMathBreak, rMathStatic61] "Math" = module1_data [rMathStatic61] "Math" ∧
    mkSlowQuestion rMathBreak ∈
      (analyze_performance_subject placeholder_scoring_maps (3 / 5)
        [rMathBreak, rMathStatic61] "Math").slow_questions :=
  ⟨(unmatched_section_spec placeholder_scoring_maps (3 / 5) [rMathStatic61] rMathBreak "Math"
      rfl (by with_unfolding_all decide) rfl (by with_unfolding_all decide)).1,
   (unmatched_section_spec placeholder_scoring_maps (3 / 5) [rMathStatic61] rMathBreak "Math"
      rfl (by with_unfolding_all decide) rfl (by with_unfolding_all decide)).2.2.2.1
     (by with_unfolding_all norm_num [rMathBreak])⟩

end DSAT
